import Mathlib

/-!
Shallow embedding of the `UsageService` fetch-and-cache client
(`src/usageService.ts`) of the cursor_usage_summary extension, together
with theorems settling the specification claims about it.

Modelling conventions:
* JavaScript numbers are modelled by `JSNum` (a rational, or one of the
  IEEE special values `NaN`, `Infinity`, `-Infinity`) so that division by
  a zero limit behaves exactly as in JavaScript.  Payload fields carry
  plain rationals (finite numbers); only arithmetic results can be
  non-finite.
* The network is an environment parameter: `net i` is the outcome the
  i-th HTTP request of a call chain observes (a response, a connection
  error, or a socket timeout).  `JSON.parse` plus the structural typing
  of the parsed value is likewise an environment parameter `jsonParse`.
* The transport additionally returns the trace of requests it issued
  (URL and Cookie header of each hop), so that claims about "no network
  call" or "same cookie on every hop" can be stated.
* The cache `Map` only ever holds the single key `"usage-summary"`, so
  the service state is an `Option CacheEntry`.
-/

namespace CursorUsage

/-- JavaScript number: a finite value (modelled as a rational) or one of
the IEEE special values produced by division by zero. -/
inductive JSNum where
  | num (q : ℚ)
  | nan
  | inf
  | negInf
deriving DecidableEq, Repr

/-- JavaScript division `a / b` on finite operands: division by zero
yields `NaN` for `0 / 0` and a signed infinity otherwise. -/
def jsDiv (a b : ℚ) : JSNum :=
  if b = 0 then
    if a = 0 then JSNum.nan else if 0 < a then JSNum.inf else JSNum.negInf
  else JSNum.num (a / b)

/-- JavaScript multiplication of a number by the literal `100`:
the special values absorb. -/
def JSNum.mul100 : JSNum → JSNum
  | JSNum.num q => JSNum.num (q * 100)
  | x => x

/-- JavaScript `Math.round`: `⌊x + 1/2⌋` on finite values, identity on
`NaN` and the infinities. -/
def JSNum.round : JSNum → JSNum
  | JSNum.num q => JSNum.num (⌊q + 1 / 2⌋ : ℤ)
  | x => x

/-- JavaScript `x || 0` on a finite number: `0` is falsy, everything
else is returned unchanged. -/
def jsNumOrZero (a : ℚ) : ℚ := if a = 0 then 0 else a

/-- One usage bucket `{enabled, used, limit, remaining}` as it appears in
the `UsageSummary` payload. -/
structure UsageBucket where
  enabled : Bool
  used : ℚ
  limit : ℚ
  remaining : ℚ
deriving DecidableEq, Repr

/-- The `individualUsage` section; `overall` may be absent in a payload
(the source reads it with optional chaining). -/
structure IndividualUsage where
  overall : Option UsageBucket
deriving DecidableEq, Repr

/-- The `teamUsage` section; either bucket may be absent in a payload. -/
structure TeamUsage where
  onDemand : Option UsageBucket
  pooled : Option UsageBucket
deriving DecidableEq, Repr

/-- The `UsageSummary` payload.  The TypeScript interface declares all
fields required, but the runtime only validates the presence of
`individualUsage`, so the two section fields are `Option`s here. -/
structure UsageSummary where
  billingCycleStart : String
  billingCycleEnd : String
  membershipType : String
  limitType : String
  isUnlimited : Bool
  autoModelSelectedDisplayMessage : String
  namedModelSelectedDisplayMessage : String
  individualUsage : Option IndividualUsage
  teamUsage : Option TeamUsage
deriving DecidableEq, Repr

/-- Configuration read from the settings collaborator.  `apiToken` is
`none` when the setting is absent (the proxy setting only configures the
socket agent and plays no role in any claim). -/
structure Config where
  apiToken : Option String
deriving DecidableEq, Repr

/-- JavaScript truthiness of the `apiToken` setting: both `undefined`
and the empty string are falsy. -/
def tokenTruthy : Option String → Bool
  | none => false
  | some t => !t.isEmpty

/-- Cookie normalization of `getRequestOptions`: a token that already
begins with the session-cookie name is used verbatim, otherwise it is
wrapped as `WorkosCursorSessionToken=<token>`. -/
def cookieValue (apiToken : String) : String :=
  if apiToken.startsWith "WorkosCursorSessionToken=" then apiToken
  else "WorkosCursorSessionToken=" ++ apiToken

/-- The request headers built by `getRequestOptions`. -/
structure Headers where
  userAgent : String
  accept : String
  cookie : Option String
deriving DecidableEq, Repr

/-- Header construction of `getRequestOptions`: fixed `User-Agent` and
`Accept`, and a `Cookie` header exactly when the token is truthy. -/
def getRequestOptions (cfg : Config) : Headers :=
  { userAgent := "Cursor-Usage-Summary-Extension/1.0.0"
    accept := "application/json"
    cookie :=
      match cfg.apiToken with
      | none => none
      | some t => if t.isEmpty then none else some (cookieValue t) }

/-- An HTTP response as observed by the response callback: status line,
optional `Location` header, the body chunks delivered before the stream
ends, and an optional stream error cutting the body short. -/
structure HttpResponse where
  statusCode : Nat
  statusMessage : String
  location : Option String
  chunks : List String
  streamError : Option String
deriving DecidableEq, Repr

/-- Outcome of one physical request: a response, a request-level
connection error, or the 30s socket timeout. -/
inductive TransportEvent where
  | resp (r : HttpResponse)
  | connError (msg : String)
  | socketTimeout
deriving DecidableEq, Repr

/-- The failure taxonomy of `makeHttpsRequest` (each constructor
corresponds to one `reject(new Error(...))` site in the source). -/
inductive FetchError where
  | redirectWithoutLocation
  | tooManyRedirects
  | httpStatus (code : Nat) (message : String)
  | connError (msg : String)
  | timeout
  | streamError (msg : String)
deriving DecidableEq, Repr

/-- Trace record of one issued request: the URL and the Cookie header
attached to it. -/
structure Request where
  url : String
  cookie : Option String
deriving DecidableEq, Repr

def API_BASE_URL : String := "https://cursor.com"

def API_ENDPOINT : String := "/api/usage-summary"

/-- Operation `makeHttpsRequest(url, maxRedirects)`: issues a GET with headers
rebuilt by `getRequestOptions` on every hop, follows 3xx redirects
(resolving relative `Location`s against the base host) while decrementing
`maxRedirects`, rejects any remaining non-200 status with an HTTP-status
error, and on 200 accumulates the chunks into the returned body.
`net i` is the outcome observed by the i-th request of the chain; the
second component is the trace of issued requests. -/
def makeHttpsRequest (cfg : Config) (net : Nat → TransportEvent) (url : String)
    (idx : Nat) (maxRedirects : Nat) : Except FetchError String × List Request :=
  let headers := getRequestOptions cfg
  let req : Request := { url := url, cookie := headers.cookie }
  let step : Except FetchError String × List Request :=
    match net idx with
    | TransportEvent.connError m => (Except.error (FetchError.connError m), [])
    | TransportEvent.socketTimeout => (Except.error FetchError.timeout, [])
    | TransportEvent.resp r =>
      if 300 ≤ r.statusCode ∧ r.statusCode < 400 then
        match r.location with
        | none => (Except.error FetchError.redirectWithoutLocation, [])
        | some loc =>
          match maxRedirects with
          | 0 => (Except.error FetchError.tooManyRedirects, [])
          | n + 1 =>
            makeHttpsRequest cfg net
              (if loc.startsWith "http" then loc else API_BASE_URL ++ loc)
              (idx + 1) n
      else if r.statusCode ≠ 200 then
        (Except.error (FetchError.httpStatus r.statusCode r.statusMessage), [])
      else
        match r.streamError with
        | none => (Except.ok (String.join r.chunks), [])
        | some m => (Except.error (FetchError.streamError m), [])
  (step.1, req :: step.2)

/-- A value returned by a successful `JSON.parse`, to the extent the
orchestrator inspects it: a falsy value (`null`, `0`, `""`, `false`), or
an object carrying the `UsageSummary` fields. -/
inductive ParsedValue where
  | falsy
  | obj (s : UsageSummary)
deriving DecidableEq, Repr

/-- Outcome of `JSON.parse` on a body string. -/
inductive ParseOutcome where
  | throwsSyntaxErr
  | value (v : ParsedValue)
deriving DecidableEq, Repr

/-- One resident cache entry `{data, timestamp}` (timestamps in
milliseconds, as `Date.now()`). -/
structure CacheEntry where
  data : UsageSummary
  timestamp : Nat
deriving DecidableEq, Repr

/-- Service state: the cache `Map` only ever holds the single key
`"usage-summary"`, so it is an optional entry. -/
structure ServiceState where
  cache : Option CacheEntry
deriving DecidableEq, Repr

def CACHE_DURATION : Nat := 60 * 1000

/-- Environment of one `getUsageSummary` call: configuration, the two
`Date.now()` readings (at the freshness check and at the cache write),
the network, and the `JSON.parse` oracle. -/
structure Env where
  cfg : Config
  now : Nat
  nowAfterFetch : Nat
  net : Nat → TransportEvent
  jsonParse : String → ParseOutcome

/-- The hard-coded placeholder dataset of `getMockUsageData`. -/
def getMockUsageData : UsageSummary :=
  { billingCycleStart := "2026-01-01T00:00:00.000Z"
    billingCycleEnd := "2026-02-01T00:00:00.000Z"
    membershipType := "enterprise"
    limitType := "team"
    isUnlimited := false
    autoModelSelectedDisplayMessage := "You\x27ve used 0% of your included total usage"
    namedModelSelectedDisplayMessage := "You\x27ve used 0% of your included API usage"
    individualUsage := some
      { overall := some { enabled := true, used := 794, limit := 5000, remaining := 4206 } }
    teamUsage := some
      { onDemand := some
          { enabled := true, used := 0, limit := 15000000, remaining := 15000000 }
        pooled := some
          { enabled := true, used := 6175916, limit := 180000000, remaining := 173824084 } } }

/-- The catch-block fallback ladder: previous cache entry if one exists
(regardless of age), otherwise the placeholder dataset. -/
def fallbackResult (cached : Option CacheEntry) : UsageSummary :=
  match cached with
  | some c => c.data
  | none => getMockUsageData

/-- Body of `getUsageSummary` past the freshness check (source lines
228-323): no-token early return of the placeholder, otherwise transport,
`JSON.parse`, the `individualUsage` structural check, cache overwrite on
success, and the fallback ladder in the catch block.  Returns the
summary, the new resident cache entry, and the request trace. -/
def fetchAndCache (env : Env) (cached : Option CacheEntry) :
    UsageSummary × Option CacheEntry × List Request :=
  if tokenTruthy env.cfg.apiToken = false then
    (getMockUsageData, cached, [])
  else
    match makeHttpsRequest env.cfg env.net (API_BASE_URL ++ API_ENDPOINT) 0 5 with
    | (Except.error _, reqs) => (fallbackResult cached, cached, reqs)
    | (Except.ok responseData, reqs) =>
      match env.jsonParse responseData with
      | ParseOutcome.throwsSyntaxErr => (fallbackResult cached, cached, reqs)
      | ParseOutcome.value ParsedValue.falsy => (fallbackResult cached, cached, reqs)
      | ParseOutcome.value (ParsedValue.obj parsedData) =>
        match parsedData.individualUsage with
        | none => (fallbackResult cached, cached, reqs)
        | some _ =>
          (parsedData,
           some { data := parsedData, timestamp := env.nowAfterFetch },
           reqs)

/-- Operation `getUsageSummary(forceRefresh)`: serve the cached value when
`forceRefresh` is false and the entry is younger than the freshness
window, otherwise run the fetch-parse-validate-cache pipeline.  Returns
the summary, the new service state, and the request trace. -/
def getUsageSummary (env : Env) (st : ServiceState) (forceRefresh : Bool) :
    UsageSummary × ServiceState × List Request :=
  match st.cache with
  | some c =>
    if !forceRefresh && decide (env.now - c.timestamp < CACHE_DURATION) then
      (c.data, st, [])
    else
      let out := fetchAndCache env (some c)
      (out.1, { cache := out.2.1 }, out.2.2)
  | none =>
    let out := fetchAndCache env none
    (out.1, { cache := out.2.1 }, out.2.2)

/-- Operation `clearCache()`: discards the resident entry unconditionally. -/
def clearCache (_st : ServiceState) : ServiceState := { cache := none }

/-- Operation `updateApiToken()`: just clears the cache. -/
def updateApiToken (st : ServiceState) : ServiceState := clearCache st

/-- Operation `testConnectivity()`: one transport attempt plus `JSON.parse`,
reported as a boolean; the cache is not touched. -/
def testConnectivity (env : Env) (st : ServiceState) : Bool × ServiceState :=
  match makeHttpsRequest env.cfg env.net (API_BASE_URL ++ API_ENDPOINT) 0 5 with
  | (Except.error _, _) => (false, st)
  | (Except.ok responseData, _) =>
    match env.jsonParse responseData with
    | ParseOutcome.throwsSyntaxErr => (false, st)
    | ParseOutcome.value _ => (true, st)

/-- Accessor `getIndividualUsagePercentage`: `0` when `individualUsage?.overall`
is absent, otherwise `Math.round((used / limit) * 100)`. -/
def getIndividualUsagePercentage (usageData : UsageSummary) : JSNum :=
  match usageData.individualUsage with
  | none => JSNum.num 0
  | some iu =>
    match iu.overall with
    | none => JSNum.num 0
    | some o => ((jsDiv o.used o.limit).mul100).round

/-- One bucket of the `getTeamUsageInfo` result. -/
structure TeamBucketInfo where
  percentage : JSNum
  used : ℚ
  limit : ℚ
deriving DecidableEq, Repr

/-- The `getTeamUsageInfo` result. -/
structure TeamUsageInfo where
  onDemand : TeamBucketInfo
  pooled : TeamBucketInfo
deriving DecidableEq, Repr

/-- The per-bucket computation of `getTeamUsageInfo`: percentage is
`Math.round((used / limit) * 100)` when the bucket is present and `0`
otherwise; `used` and `limit` are reported through `|| 0`. -/
def teamBucketInfo (b : Option UsageBucket) : TeamBucketInfo :=
  match b with
  | some bk =>
    { percentage := ((jsDiv bk.used bk.limit).mul100).round
      used := jsNumOrZero bk.used
      limit := jsNumOrZero bk.limit }
  | none => { percentage := JSNum.num 0, used := 0, limit := 0 }

/-- Accessor `getTeamUsageInfo`: the two team buckets, each through
`teamBucketInfo`, with `teamUsage` itself optional. -/
def getTeamUsageInfo (usageData : UsageSummary) : TeamUsageInfo :=
  { onDemand := teamBucketInfo (usageData.teamUsage.bind TeamUsage.onDemand)
    pooled := teamBucketInfo (usageData.teamUsage.bind TeamUsage.pooled) }

/-- The request trace of the one logical fetch issued by
`getUsageSummary` and `testConnectivity`. -/
def requestsOf (env : Env) : List Request :=
  (makeHttpsRequest env.cfg env.net (API_BASE_URL ++ API_ENDPOINT) 0 5).2

/-- Outcome of the fetch-parse-validate pipeline of `getUsageSummary`:
`some d` exactly when the transport succeeds, `JSON.parse` succeeds with
a truthy value, and the `individualUsage` structural check passes. -/
def fetchPipeline (env : Env) : Option UsageSummary :=
  match (makeHttpsRequest env.cfg env.net (API_BASE_URL ++ API_ENDPOINT) 0 5).1 with
  | Except.error _ => none
  | Except.ok body =>
    match env.jsonParse body with
    | ParseOutcome.throwsSyntaxErr => none
    | ParseOutcome.value ParsedValue.falsy => none
    | ParseOutcome.value (ParsedValue.obj s) =>
      if s.individualUsage.isSome then some s else none

/-- Invariant of claim C10: every resident cache entry has a non-null
`individualUsage` section. -/
def cacheInv (st : ServiceState) : Prop :=
  ∀ c, st.cache = some c → c.data.individualUsage.isSome = true

/-- Concrete payload whose buckets have `limit = 0`: the individual
bucket with `used = 0`, the team on-demand bucket with `used = 5`. -/
def zeroLimitSummary : UsageSummary :=
  { getMockUsageData with
    individualUsage := some
      { overall := some { enabled := true, used := 0, limit := 0, remaining := 0 } }
    teamUsage := some
      { onDemand := some { enabled := true, used := 5, limit := 0, remaining := 0 }
        pooled := none } }

/-- Concrete network whose every request is answered with `201 Created`
and a body. -/
def net201 : Nat → TransportEvent := fun _ =>
  TransportEvent.resp
    { statusCode := 201, statusMessage := "Created", location := none,
      chunks := ["payload"], streamError := none }

/-- Concrete network whose every request is answered with `200 OK` and a
two-chunk body. -/
def net200 : Nat → TransportEvent := fun _ =>
  TransportEvent.resp
    { statusCode := 200, statusMessage := "OK", location := none,
      chunks := ["ab", "cd"], streamError := none }

/-- A `302 Found` redirect response pointing at the login page. -/
def redirResp : HttpResponse :=
  { statusCode := 302, statusMessage := "Found", location := some "/login",
    chunks := [], streamError := none }

/-- Concrete network whose every request is answered with a `302`
redirect to the login page. -/
def netRedir : Nat → TransportEvent := fun _ => TransportEvent.resp redirResp

/-- Concrete network: a redirect chain of depth 3 ending in `200` with a
valid body. -/
def netChain3 : Nat → TransportEvent := fun i =>
  if i < 3 then
    TransportEvent.resp
      { statusCode := 302, statusMessage := "Found", location := some "/r",
        chunks := [], streamError := none }
  else
    TransportEvent.resp
      { statusCode := 200, statusMessage := "OK", location := none,
        chunks := ["ok"], streamError := none }

/-- A parse oracle that always throws a syntax error. -/
def parseFail : String → ParseOutcome := fun _ => ParseOutcome.throwsSyntaxErr

/-- Concrete environment: token configured, every request answered with
`201`, parsing always fails. -/
def envTok : Env :=
  { cfg := { apiToken := some "tok" }, now := 1000000, nowAfterFetch := 1000100,
    net := net201, jsonParse := parseFail }

/-- Concrete environment: no token configured, fresh clock. -/
def envNoToken : Env :=
  { cfg := { apiToken := none }, now := 1500, nowAfterFetch := 1600,
    net := net201, jsonParse := parseFail }

/-- Concrete environment: token configured, every response a redirect,
clock far past any cached timestamp. -/
def envRedir : Env :=
  { cfg := { apiToken := some "tok" }, now := 100000000, nowAfterFetch := 100000100,
    net := netRedir, jsonParse := parseFail }

/-- Concrete environment: token configured, `200` responses, parsing
fails; clock close to `entryA.timestamp`. -/
def envFresh : Env :=
  { cfg := { apiToken := some "tok" }, now := 1000, nowAfterFetch := 1100,
    net := net201, jsonParse := parseFail }

/-- A concrete cache entry holding the zero-limit payload. -/
def entryA : CacheEntry := { data := zeroLimitSummary, timestamp := 500 }

/-- A concrete state holding a cache entry written at time 1000. -/
def stFresh : ServiceState :=
  { cache := some { data := getMockUsageData, timestamp := 1000 } }

/-- Helper: the transport always issues at least one request, and the
first request of a chain targets the given URL with the headers built
from the configuration. -/
theorem makeHttpsRequest_requests_cons (cfg : Config) (net : Nat → TransportEvent)
    (url : String) (idx m : Nat) :
    ∃ rest, (makeHttpsRequest cfg net url idx m).2 =
      { url := url, cookie := (getRequestOptions cfg).cookie } :: rest := by
  unfold makeHttpsRequest
  exact ⟨_, rfl⟩

/-- Helper: every request of a chain carries the Cookie header computed
by `getRequestOptions` from the (per-hop re-read) configuration. -/
theorem makeHttpsRequest_cookie (cfg : Config) (net : Nat → TransportEvent) :
    ∀ (m : Nat) (url : String) (idx : Nat) (req : Request),
      req ∈ (makeHttpsRequest cfg net url idx m).2 →
      req.cookie = (getRequestOptions cfg).cookie := by
  intro m
  induction m with
  | zero =>
    intro url idx req hmem
    unfold makeHttpsRequest at hmem
    simp only [List.mem_cons] at hmem
    rcases hmem with h | h
    · subst h; rfl
    · cases hnet : net idx <;> rw [hnet] at h <;> simp at h
      split at h
      · split at h <;> simp at h
      · split at h <;>
          first
          | simp at h
          | (split at h <;> simp at h)
  | succ n ih =>
    intro url idx req hmem
    unfold makeHttpsRequest at hmem
    simp only [List.mem_cons] at hmem
    rcases hmem with h | h
    · subst h; rfl
    · cases hnet : net idx <;> rw [hnet] at h <;> simp at h
      split at h
      · split at h
        · simp at h
        · exact ih _ _ _ h
      · split at h <;>
          first
          | simp at h
          | (split at h <;> simp at h)

/-- Helper: if the responses to requests `idx, ..., idx + m` are all 3xx
redirects with a Location header, a chain started with `m` remaining
redirects fails with `tooManyRedirects`. -/
theorem makeHttpsRequest_all_redirects (cfg : Config) (net : Nat → TransportEvent) :
    ∀ (m idx : Nat) (url : String),
      (∀ j, j ≤ m → ∃ r, net (idx + j) = TransportEvent.resp r ∧
          (300 ≤ r.statusCode ∧ r.statusCode < 400) ∧ r.location.isSome = true) →
      (makeHttpsRequest cfg net url idx m).1 = Except.error FetchError.tooManyRedirects := by
  intro m
  induction m with
  | zero =>
    intro idx url h
    obtain ⟨r, hr, hcode, hloc⟩ := h 0 le_rfl
    rw [Nat.add_zero] at hr
    obtain ⟨loc, hl⟩ := Option.isSome_iff_exists.mp hloc
    unfold makeHttpsRequest
    simp only [hr, hl]
    simp [hcode]
  | succ n ih =>
    intro idx url h
    obtain ⟨r, hr, hcode, hloc⟩ := h 0 (Nat.zero_le _)
    rw [Nat.add_zero] at hr
    obtain ⟨loc, hl⟩ := Option.isSome_iff_exists.mp hloc
    unfold makeHttpsRequest
    simp only [hr, hl]
    rw [if_pos hcode]
    exact ih (idx + 1) _ (fun j hj => by
      have hh := h (j + 1) (Nat.succ_le_succ hj)
      rwa [show idx + (j + 1) = idx + 1 + j by omega] at hh)

/-- Helper: the fetch branch of `getUsageSummary`, characterized through
`fetchPipeline`. -/
theorem fetchAndCache_spec (env : Env) (cached : Option CacheEntry) :
    fetchAndCache env cached =
      if tokenTruthy env.cfg.apiToken = false then (getMockUsageData, cached, [])
      else
        match fetchPipeline env with
        | some d => (d, some { data := d, timestamp := env.nowAfterFetch }, requestsOf env)
        | none => (fallbackResult cached, cached, requestsOf env) := by
  unfold fetchAndCache fetchPipeline requestsOf
  by_cases ht : tokenTruthy env.cfg.apiToken = false
  · simp [ht]
  · rw [if_neg ht, if_neg ht]
    rcases hreq : makeHttpsRequest env.cfg env.net (API_BASE_URL ++ API_ENDPOINT) 0 5 with ⟨res, reqs⟩
    cases res with
    | error e => simp
    | ok body =>
      cases hp : env.jsonParse body with
      | throwsSyntaxErr => simp [hp]
      | value v =>
        cases v with
        | falsy => simp [hp]
        | obj s =>
          cases hi : s.individualUsage with
          | none => simp [hp, hi]
          | some iu => simp [hp, hi]

/-- Helper: a `getUsageSummary` call is either a fresh-cache hit (with
the freshness facts recorded) or delegates to the fetch branch. -/
theorem getUsageSummary_cases (env : Env) (st : ServiceState) (force : Bool) :
    (∃ c, st.cache = some c ∧ force = false ∧
        env.now - c.timestamp < CACHE_DURATION ∧
        getUsageSummary env st force = (c.data, st, [])) ∨
    (getUsageSummary env st force =
      ((fetchAndCache env st.cache).1,
       { cache := (fetchAndCache env st.cache).2.1 },
       (fetchAndCache env st.cache).2.2)) := by
  cases hc : st.cache with
  | none =>
    right
    unfold getUsageSummary
    rw [hc]
  | some c =>
    by_cases hf : (!force && decide (env.now - c.timestamp < CACHE_DURATION)) = true
    · left
      simp only [Bool.and_eq_true, Bool.not_eq_true', decide_eq_true_eq] at hf
      refine ⟨c, rfl, hf.1, hf.2, ?_⟩
      unfold getUsageSummary
      rw [hc]
      simp [hf.1, hf.2]
    · right
      rw [Bool.not_eq_true] at hf
      unfold getUsageSummary
      rw [hc]
      simp [hf]

/-- Helper: a payload delivered by a successful pipeline run passed the
`individualUsage` structural check. -/
theorem fetchPipeline_validates (env : Env) (d : UsageSummary)
    (h : fetchPipeline env = some d) : d.individualUsage.isSome = true := by
  unfold fetchPipeline at h
  split at h
  · exact absurd h (by simp)
  · split at h
    · exact absurd h (by simp)
    · exact absurd h (by simp)
    · split at h
      · rw [Option.some_inj] at h
        subst h
        assumption
      · exact absurd h (by simp)

/-- C1: getUsageSummary is total: for every input (forceRefresh true or
false, any transport outcome, any response body) it returns one of the
cached value, the placeholder, or a validated fresh payload; and whenever
a token is configured and the fetch-parse-validate pipeline fails, it
returns the previously cached entry if one exists regardless of its age
and the placeholder otherwise. -/
theorem getUsageSummary_total_with_fallback (env : Env) (st : ServiceState) (force : Bool) :
    ((∃ c, st.cache = some c ∧ (getUsageSummary env st force).1 = c.data) ∨
      (getUsageSummary env st force).1 = getMockUsageData ∨
      (∃ d, fetchPipeline env = some d ∧ (getUsageSummary env st force).1 = d)) ∧
    (tokenTruthy env.cfg.apiToken = true → fetchPipeline env = none →
      (getUsageSummary env st force).1 = fallbackResult st.cache) := by
  rcases getUsageSummary_cases env st force with ⟨c, hc, _, _, heq⟩ | heq
  · refine ⟨Or.inl ⟨c, hc, by rw [heq]⟩, fun _ _ => ?_⟩
    rw [heq, hc]
    rfl
  · have hspec := fetchAndCache_spec env st.cache
    by_cases ht : tokenTruthy env.cfg.apiToken = false
    · rw [if_pos ht] at hspec
      rw [heq, hspec]
      refine ⟨Or.inr (Or.inl rfl), fun h1 _ => ?_⟩
      rw [h1] at ht
      exact absurd ht (by simp)
    · rw [if_neg ht] at hspec
      cases hp : fetchPipeline env with
      | some d =>
        rw [hp] at hspec
        rw [heq, hspec]
        exact ⟨Or.inr (Or.inr ⟨d, rfl, rfl⟩), fun _ h2 => nomatch h2⟩
      | none =>
        rw [hp] at hspec
        rw [heq, hspec]
        refine ⟨?_, fun _ _ => rfl⟩
        cases hcc : st.cache with
        | some c => exact Or.inl ⟨c, rfl, rfl⟩
        | none => exact Or.inr (Or.inl rfl)

/-- Witness for C1 at a concrete input: token configured, transport
answers 201 (a failure), a stale cache entry exists, and it is
returned. -/
theorem getUsageSummary_total_with_fallback_witness :
    (getUsageSummary envTok { cache := some entryA } false).1 = fallbackResult (some entryA) :=
  (getUsageSummary_total_with_fallback envTok { cache := some entryA } false).2 (by decide) rfl

/-- C2: evaluation of the percentage helpers at a payload whose buckets
have limit = 0: the individual percentage is NaN (not 0) and the team
on-demand percentage is Infinity (not 0), exhibiting the missing
division-by-zero guard. -/
theorem zero_limit_percentages_not_zero :
    getIndividualUsagePercentage zeroLimitSummary = JSNum.nan ∧
    getIndividualUsagePercentage zeroLimitSummary ≠ JSNum.num 0 ∧
    (getTeamUsageInfo zeroLimitSummary).onDemand.percentage = JSNum.inf ∧
    (getTeamUsageInfo zeroLimitSummary).onDemand.percentage ≠ JSNum.num 0 :=
  ⟨by decide, by decide, by decide, by decide⟩

/-- C3: a redirect chain of depth 6 (every one of the six responses a
3xx with a Location) exhausts the default bound of 5 and fails with
TooManyRedirects; and, with a prior (stale) cache entry present,
getUsageSummary returns that cached value, not the placeholder. -/
theorem redirect_depth6_fails_and_serves_stale_cache
    (env : Env) (st : ServiceState) (c : CacheEntry)
    (hc : st.cache = some c)
    (htoken : tokenTruthy env.cfg.apiToken = true)
    (hnet : ∀ j, j ≤ 5 → ∃ r, env.net j = TransportEvent.resp r ∧
        (300 ≤ r.statusCode ∧ r.statusCode < 400) ∧ r.location.isSome = true)
    (hstale : ¬(env.now - c.timestamp < CACHE_DURATION)) :
    (makeHttpsRequest env.cfg env.net (API_BASE_URL ++ API_ENDPOINT) 0 5).1 =
      Except.error FetchError.tooManyRedirects ∧
    (getUsageSummary env st false).1 = c.data := by
  have htrans : (makeHttpsRequest env.cfg env.net (API_BASE_URL ++ API_ENDPOINT) 0 5).1 =
      Except.error FetchError.tooManyRedirects :=
    makeHttpsRequest_all_redirects env.cfg env.net 5 0 _ (fun j hj => by simpa using hnet j hj)
  refine ⟨htrans, ?_⟩
  have hpipe : fetchPipeline env = none := by
    unfold fetchPipeline
    rw [htrans]
  rcases getUsageSummary_cases env st false with ⟨c2, hc2, _, hfr, _⟩ | heq
  · rw [hc] at hc2
    injection hc2 with hcc
    subst hcc
    exact absurd hfr hstale
  · have hspec := fetchAndCache_spec env st.cache
    rw [if_neg (by simp [htoken])] at hspec
    rw [hpipe] at hspec
    rw [heq, hspec, hc]
    rfl

/-- Witness for C3 at a concrete input: every response a 302 to /login,
a stale entry in the cache, and the entry is returned. -/
theorem redirect_depth6_witness :
    (makeHttpsRequest envRedir.cfg envRedir.net (API_BASE_URL ++ API_ENDPOINT) 0 5).1 =
      Except.error FetchError.tooManyRedirects ∧
    (getUsageSummary envRedir { cache := some entryA } false).1 = entryA.data :=
  redirect_depth6_fails_and_serves_stale_cache envRedir { cache := some entryA } entryA rfl
    (by decide) (fun _ _ => ⟨redirResp, rfl, by decide, rfl⟩) (by decide)

/-- C4: when forceRefresh is false and the cache entry is younger than
the 60-second window, the identical cached value is returned, the state
is unchanged, and no request is issued. -/
theorem fresh_cache_hit_returns_cached_without_network
    (env : Env) (st : ServiceState) (c : CacheEntry)
    (hc : st.cache = some c)
    (hfresh : env.now - c.timestamp < CACHE_DURATION) :
    getUsageSummary env st false = (c.data, st, []) := by
  unfold getUsageSummary
  rw [hc]
  simp [hfresh]

/-- Witness for C4 at a concrete input: entry written at 500, clock at
1000, well inside the 60000 ms window. -/
theorem fresh_cache_hit_witness :
    getUsageSummary envFresh { cache := some entryA } false =
      (entryA.data, { cache := some entryA }, []) :=
  fresh_cache_hit_returns_cached_without_network envFresh { cache := some entryA } entryA rfl
    (by decide)

/-- C5 counterexample: with no auth token configured, getUsageSummary
with forceRefresh = true issues no request at all, even though a cache
entry younger than 60 seconds exists — so the transport is not invoked
on every forceRefresh call. -/
theorem force_refresh_without_token_makes_no_request :
    envNoToken.cfg.apiToken = none ∧
    envNoToken.now - 1000 < CACHE_DURATION ∧
    (getUsageSummary envNoToken stFresh true).2.2 = [] :=
  ⟨rfl, by decide, rfl⟩

/-- C5 amended: for every call with forceRefresh = true and a truthy
auth token configured, a network request is issued (to the fixed
endpoint) regardless of cache freshness. -/
theorem force_refresh_with_token_attempts_network (env : Env) (st : ServiceState)
    (htoken : tokenTruthy env.cfg.apiToken = true) :
    ∃ rest, (getUsageSummary env st true).2.2 =
      { url := API_BASE_URL ++ API_ENDPOINT, cookie := (getRequestOptions env.cfg).cookie } :: rest := by
  rcases getUsageSummary_cases env st true with ⟨c, _, hforce, _, _⟩ | heq
  · exact absurd hforce (by simp)
  · have hspec := fetchAndCache_spec env st.cache
    rw [if_neg (by simp [htoken])] at hspec
    cases hp : fetchPipeline env with
    | some d =>
      rw [hp] at hspec
      rw [heq, hspec]
      exact Exists.imp (fun rest hr => hr)
        (makeHttpsRequest_requests_cons env.cfg env.net (API_BASE_URL ++ API_ENDPOINT) 0 5)
    | none =>
      rw [hp] at hspec
      rw [heq, hspec]
      exact Exists.imp (fun rest hr => hr)
        (makeHttpsRequest_requests_cons env.cfg env.net (API_BASE_URL ++ API_ENDPOINT) 0 5)

/-- Witness for the amended C5 at a concrete input: token configured,
fetch fails, yet the request was issued. -/
theorem force_refresh_with_token_witness :
    ∃ rest, (getUsageSummary envTok { cache := none } true).2.2 =
      { url := API_BASE_URL ++ API_ENDPOINT, cookie := (getRequestOptions envTok.cfg).cookie } :: rest :=
  force_refresh_with_token_attempts_network envTok { cache := none } (by decide)

/-- C6: with no truthy auth token and no fresh cache hit, getUsageSummary
returns exactly the placeholder dataset (with used = 794 and
limit = 5000 in the overall individual bucket) and issues no request. -/
theorem no_token_returns_placeholder (env : Env) (st : ServiceState) (force : Bool)
    (htoken : tokenTruthy env.cfg.apiToken = false)
    (hnofresh : ∀ c, st.cache = some c →
      ¬(force = false ∧ env.now - c.timestamp < CACHE_DURATION)) :
    getUsageSummary env st force = (getMockUsageData, st, []) ∧
    getMockUsageData.individualUsage = some
      { overall := some { enabled := true, used := 794, limit := 5000, remaining := 4206 } } := by
  refine ⟨?_, rfl⟩
  rcases getUsageSummary_cases env st force with ⟨c, hc, hf1, hf2, _⟩ | heq
  · exact absurd ⟨hf1, hf2⟩ (hnofresh c hc)
  · have hspec := fetchAndCache_spec env st.cache
    rw [if_pos htoken] at hspec
    rw [heq, hspec]

/-- Witness for C6 at a concrete input: no token, empty cache. -/
theorem no_token_witness :
    getUsageSummary envNoToken { cache := none } false =
      (getMockUsageData, { cache := none }, []) ∧
    getMockUsageData.individualUsage = some
      { overall := some { enabled := true, used := 794, limit := 5000, remaining := 4206 } } :=
  no_token_returns_placeholder envNoToken { cache := none } false rfl
    (fun _ hc => nomatch hc)

/-- C7: for every configured (truthy) token, every request of any
redirect chain carries the Cookie header: the token verbatim when it
already begins with the session-cookie name, and the wrapped form
otherwise — the same value on every hop. -/
theorem cookie_normalized_and_identical_on_every_hop
    (cfg : Config) (t : String) (net : Nat → TransportEvent) (url : String) (idx m : Nat)
    (htoken : cfg.apiToken = some t) (hne : t.isEmpty = false) :
    ∀ req ∈ (makeHttpsRequest cfg net url idx m).2,
      req.cookie = some (if t.startsWith "WorkosCursorSessionToken=" then t
                          else "WorkosCursorSessionToken=" ++ t) := by
  intro req hmem
  rw [makeHttpsRequest_cookie cfg net m url idx req hmem]
  unfold getRequestOptions
  rw [htoken]
  simp [hne, cookieValue]

set_option maxRecDepth 8192 in
/-- Witness for C7 at a concrete input: a depth-3 redirect chain ending
in 200 issues 4 requests, and the initial request in its trace carries
the wrapped cookie. -/
theorem cookie_on_every_hop_witness :
    (makeHttpsRequest { apiToken := some "abc" } netChain3 (API_BASE_URL ++ API_ENDPOINT) 0 5).2.length = 4 ∧
    ∃ req, req ∈ (makeHttpsRequest { apiToken := some "abc" } netChain3 (API_BASE_URL ++ API_ENDPOINT) 0 5).2 ∧
      req.cookie = some (if "abc".startsWith "WorkosCursorSessionToken=" then "abc"
                          else "WorkosCursorSessionToken=" ++ "abc") :=
  ⟨by decide,
   { url := API_BASE_URL ++ API_ENDPOINT, cookie := some "WorkosCursorSessionToken=abc" },
   by decide,
   cookie_normalized_and_identical_on_every_hop { apiToken := some "abc" } "abc" netChain3
     (API_BASE_URL ++ API_ENDPOINT) 0 5 rfl (by decide)
     { url := API_BASE_URL ++ API_ENDPOINT, cookie := some "WorkosCursorSessionToken=abc" }
     (by decide)⟩

/-- C8 counterexample: a 201 response — a 2xx status — does not have its
body returned; the transport fails with an HTTP-status error instead. -/
theorem status_201_fails_with_http_status :
    (makeHttpsRequest { apiToken := some "tok" } net201 (API_BASE_URL ++ API_ENDPOINT) 0 5).1
      = Except.error (FetchError.httpStatus 201 "Created") := rfl

/-- C8 amended: a response with status exactly 200 (and no stream error)
has its accumulated body returned as raw text; every response whose
status is neither 200 nor 3xx fails with an HTTP-status error carrying
the code and message. -/
theorem transport_status_dispatch (cfg : Config) (net : Nat → TransportEvent)
    (url : String) (idx m : Nat) (r : HttpResponse)
    (hnet : net idx = TransportEvent.resp r) :
    (r.statusCode = 200 → r.streamError = none →
      (makeHttpsRequest cfg net url idx m).1 = Except.ok (String.join r.chunks)) ∧
    (¬(300 ≤ r.statusCode ∧ r.statusCode < 400) → r.statusCode ≠ 200 →
      (makeHttpsRequest cfg net url idx m).1 =
        Except.error (FetchError.httpStatus r.statusCode r.statusMessage)) := by
  constructor
  · intro h200 hse
    unfold makeHttpsRequest
    simp only [hnet, hse]
    rw [if_neg (by omega : ¬(300 ≤ r.statusCode ∧ r.statusCode < 400)),
        if_neg (by omega : ¬r.statusCode ≠ 200)]
  · intro h3 h200
    unfold makeHttpsRequest
    simp only [hnet]
    rw [if_neg h3, if_pos h200]

/-- Witness for the amended C8 at a concrete input: a 200 response with
two chunks has their concatenation returned. -/
theorem transport_status_dispatch_witness :
    (makeHttpsRequest { apiToken := some "tok" } net200 (API_BASE_URL ++ API_ENDPOINT) 0 5).1
      = Except.ok (String.join ["ab", "cd"]) :=
  (transport_status_dispatch { apiToken := some "tok" } net200 (API_BASE_URL ++ API_ENDPOINT) 0 5
      { statusCode := 200, statusMessage := "OK", location := none,
        chunks := ["ab", "cd"], streamError := none }
      rfl).1 rfl rfl

/-- C9: the resident cache entry is either left exactly as it was, or —
only when the fetch-parse-validate pipeline succeeds — replaced wholesale
by a new entry holding the validated payload; in particular on every
failed fetch the cache is unchanged. -/
theorem cache_overwritten_only_on_validated_success (env : Env) (st : ServiceState) (force : Bool) :
    ((getUsageSummary env st force).2.1.cache = st.cache ∨
      ∃ d, fetchPipeline env = some d ∧
        (getUsageSummary env st force).2.1.cache =
          some { data := d, timestamp := env.nowAfterFetch } ∧
        (getUsageSummary env st force).1 = d) ∧
    (fetchPipeline env = none → (getUsageSummary env st force).2.1.cache = st.cache) := by
  rcases getUsageSummary_cases env st force with ⟨c, hc, _, _, heq⟩ | heq
  · rw [heq]
    exact ⟨Or.inl rfl, fun _ => rfl⟩
  · have hspec := fetchAndCache_spec env st.cache
    by_cases ht : tokenTruthy env.cfg.apiToken = false
    · rw [if_pos ht] at hspec
      rw [heq, hspec]
      exact ⟨Or.inl rfl, fun _ => rfl⟩
    · rw [if_neg ht] at hspec
      cases hp : fetchPipeline env with
      | some d =>
        rw [hp] at hspec
        rw [heq, hspec]
        exact ⟨Or.inr ⟨d, rfl, rfl, rfl⟩, fun h => nomatch h⟩
      | none =>
        rw [hp] at hspec
        rw [heq, hspec]
        exact ⟨Or.inl rfl, fun _ => rfl⟩

/-- Witness for C9 at a concrete input: failing fetch, empty cache stays
empty. -/
theorem cache_unchanged_on_failure_witness :
    (getUsageSummary envTok { cache := none } false).2.1.cache = none :=
  (cache_overwritten_only_on_validated_success envTok { cache := none } false).2 rfl

/-- C10: the invariant that every resident cache entry has a non-null
individualUsage section is preserved by getUsageSummary, clearCache,
updateApiToken and testConnectivity. -/
theorem cache_invariant_individualUsage_present (env : Env) (st : ServiceState) (force : Bool)
    (h : cacheInv st) :
    cacheInv (getUsageSummary env st force).2.1 ∧
    cacheInv (clearCache st) ∧
    cacheInv (updateApiToken st) ∧
    cacheInv (testConnectivity env st).2 := by
  refine ⟨?_, ?_, ?_, ?_⟩
  · rcases getUsageSummary_cases env st force with ⟨c, hc, _, _, heq⟩ | heq
    · rw [heq]
      exact h
    · have hspec := fetchAndCache_spec env st.cache
      by_cases ht : tokenTruthy env.cfg.apiToken = false
      · rw [if_pos ht] at hspec
        rw [heq, hspec]
        intro c hcc
        exact h c hcc
      · rw [if_neg ht] at hspec
        cases hp : fetchPipeline env with
        | some d =>
          rw [hp] at hspec
          rw [heq, hspec]
          intro c hcc
          cases hcc
          exact fetchPipeline_validates env d hp
        | none =>
          rw [hp] at hspec
          rw [heq, hspec]
          intro c hcc
          exact h c hcc
  · intro c hc
    cases hc
  · intro c hc
    cases hc
  · unfold testConnectivity
    rcases hreq : makeHttpsRequest env.cfg env.net (API_BASE_URL ++ API_ENDPOINT) 0 5 with ⟨res, reqs⟩
    cases res with
    | error e => exact h
    | ok body =>
      cases hp : env.jsonParse body with
      | throwsSyntaxErr =>
        simp only [hp]
        exact h
      | value v =>
        simp only [hp]
        exact h

/-- Witness for C10 at a concrete input: the empty cache satisfies the
invariant and still does after a failing refresh. -/
theorem cache_invariant_witness :
    cacheInv (getUsageSummary envTok { cache := none } false).2.1 :=
  (cache_invariant_individualUsage_present envTok { cache := none } false
    (fun _ hc => nomatch hc)).1

end CursorUsage
